import Mathlib

/-!
# Verification of the SNAS credential service against its specification

This development gives a shallow embedding of the core of SNAS ("Simple NATS
Authentication Service"): the password-lifecycle state machine in
`src/handlers.rs`, the credential store write path in `src/storage.rs`, the
NATS admin/user server envelope mappings in `src/servers/nats/{admin,user}.rs`,
and the framed stream-socket protocol in `src/servers/socket.rs` together with
the client framing in `src/clients/socket.rs`.

Modelling conventions:
* Rust `Duration` values measured as seconds-since-epoch become `Nat` seconds;
  the wall clock (`current_time()`) is threaded as an explicit `now : Nat`.
* The Argon2 password hash (an external crate) is idealised: a hash records the
  salt and the hashed password, and verification succeeds exactly when the
  candidate password equals the hashed one.  Fresh salts and the OsRng-generated
  temporary token become explicit `salt`/`temp` parameters.
* The KV-backed store is modelled as an association list from usernames to user
  records; `put_user` at the handlers layer always succeeds (transient bucket
  errors are the subject of the dedicated `credStorePutUser` model).
* Bytes on the socket are `Nat`s; the byte stream available on a connection is
  a `List Nat`.
-/

deriving instance DecidableEq for Except

namespace Snas

/-- Idealised Argon2-family hash: the opaque hash string contains salt and
digest; verification compares the candidate against the hashed password. -/
structure HashedPassword where
  salt : Nat
  pw : String
deriving DecidableEq, Repr

/-- `argon2.verify_password`, idealised: succeeds iff the passwords match. -/
def verifyHash (h : HashedPassword) (password : String) : Bool :=
  h.pw == password

/-- `hash_password` from `src/handlers.rs`: Argon2 hash with a fresh salt. -/
def hashPassword (salt : Nat) (password : String) : HashedPassword :=
  ⟨salt, password⟩

/-- `PasswordResetPhase` from `src/types/mod.rs`. Expiries are seconds since
the unix epoch. -/
inductive PasswordResetPhase where
  | Reset (expiry : Nat)
  | InitialLogin (expiry : Nat)
  | Locked
deriving DecidableEq, Repr

/-- `UserInfo` from `src/types/mod.rs`.  The `BTreeSet<String>` of groups is a
sorted duplicate-free list. -/
structure UserInfo where
  hashed_password : HashedPassword
  password_reset : Option PasswordResetPhase
  groups : List String
deriving DecidableEq, Repr

/-- The credential store contents: username-keyed association list. -/
def Store : Type := List (String × UserInfo)

instance : DecidableEq Store := by
  unfold Store
  infer_instance

/-- `CredStore::get_user`: cache lookup. -/
def getUser (store : Store) (username : String) : Option UserInfo :=
  (store.find? (fun p => p.1 == username)).map (·.2)

/-- `CredStore::put_user` at the handlers layer: insert or overwrite. -/
def putUser (store : Store) (username : String) (info : UserInfo) : Store :=
  match store with
  | [] => [(username, info)]
  | (k, v) :: rest =>
    if k == username then (username, info) :: rest
    else (k, v) :: putUser rest username info

/-- `CredStore::exists`: the cache and the bucket agree in this single-store
model, so existence is just a successful lookup. -/
def existsUser (store : Store) (username : String) : Bool :=
  (getUser store username).isSome

/-- `HandleError` from `src/error.rs`. -/
inductive HandleError where
  | UsernameTaken
  | InvalidCredentials
  | PasswordResetExpired
  | UsernameDoesNotExist
  | SystemError (msg : String)
deriving DecidableEq, Repr

/-- The `thiserror` display strings from `src/error.rs` (`SystemError` is
`#[error(transparent)]`). -/
def HandleError.display : HandleError → String
  | .UsernameTaken => "Username already exists"
  | .InvalidCredentials => "Invalid username or password"
  | .PasswordResetExpired => "Password reset has expired"
  | .UsernameDoesNotExist => "Username does not exist"
  | .SystemError msg => msg

/-- `VerificationResponse` from `src/types/api.rs`. -/
structure VerificationResponse where
  valid : Bool
  message : String
  needs_password_reset : Bool
  groups : List String
deriving DecidableEq, Repr

/-- `PasswordResetResponse` from `src/types/admin.rs`. -/
structure PasswordResetResponse where
  temp_password : String
  expires_at : Nat
deriving DecidableEq, Repr

/-- `AdminUserAddRequest` from `src/types/admin.rs`. -/
structure AdminUserAddRequest where
  username : String
  password : String
  groups : List String
  force_password_change : Bool
deriving DecidableEq, Repr

/-- `GroupModifyRequest` as used by `src/servers/nats/admin.rs`. -/
structure GroupModifyRequest where
  username : String
  groups : List String
deriving DecidableEq, Repr

/-- `GenericResponse` (the wire envelope) from `src/types/api.rs`. -/
structure GenericResponse (α : Type) where
  success : Bool
  message : String
  response : Option α
deriving DecidableEq, Repr

/-- `DEFAULT_RESET_EXPIRY` from `src/handlers.rs`: 24 hours in seconds. -/
def DEFAULT_RESET_EXPIRY : Nat := 60 * 60 * 24

/-- `Handlers::enforce_login_state` from `src/handlers.rs`.  Returns the
(possibly updated) user record together with the store after the phase
transition has been persisted.  The `Reset` and denied arms write the updated
record through `put_user` before reporting the outcome, exactly as the source
does. -/
def enforceLoginState (store : Store) (username : String) (user : UserInfo)
    (is_password_change : Bool) (now : Nat) :
    Except HandleError UserInfo × Store :=
  match user.password_reset with
  | some (.Reset expiry) =>
    if now < expiry then
      let u := { user with password_reset := some (.InitialLogin expiry) }
      (.ok u, putUser store username u)
    else
      let u := { user with password_reset := some .Locked }
      (.error .PasswordResetExpired, putUser store username u)
  | some (.InitialLogin expiry) =>
    if is_password_change then
      if now ≥ expiry then
        let u := { user with password_reset := some .Locked }
        (.error .PasswordResetExpired, putUser store username u)
      else
        -- not expired: the user may retry, record left untouched
        (.ok user, store)
    else
      -- not a password change: lock and deny no matter the expiry
      let u := { user with password_reset := some .Locked }
      (.error .PasswordResetExpired, putUser store username u)
  | some .Locked =>
    -- locked: no update needed, just deny
    (.error .PasswordResetExpired, store)
  | none => (.ok user, store)

/-- `Handlers::verify` from `src/handlers.rs`.  NOTE: the source passes `true`
for `is_password_change` when calling `enforce_login_state` (line 54), and the
embedding reproduces that literally.  The success response carries
`valid = true`, which is how both servers and the wire type
(`src/types/api.rs`) interpret an `Ok` from this handler. -/
def verify (store : Store) (now : Nat) (username password : String) :
    Except HandleError VerificationResponse × Store :=
  match getUser store username with
  | none => (.error .UsernameDoesNotExist, store)
  | some user =>
    match enforceLoginState store username user true now with
    | (.error e, store') => (.error e, store')
    | (.ok user', store') =>
      if verifyHash user'.hashed_password password then
        (.ok { valid := true
               message := "Successfully verified"
               needs_password_reset := user'.password_reset.isSome
               groups := user'.groups }, store')
      else
        (.error .InvalidCredentials, store')

/-- `Handlers::add` from `src/handlers.rs`. -/
def add (store : Store) (now salt : Nat) (req : AdminUserAddRequest) :
    Except HandleError Unit × Store :=
  if existsUser store req.username then
    (.error .UsernameTaken, store)
  else
    let hashed := hashPassword salt req.password
    let password_reset :=
      if req.force_password_change then
        some (PasswordResetPhase.Reset (now + DEFAULT_RESET_EXPIRY))
      else none
    (.ok (), putUser store req.username
      { hashed_password := hashed, password_reset := password_reset
        groups := req.groups })

/-- `Handlers::change_password` from `src/handlers.rs`.  The fresh salt for
the new password's hash is an explicit parameter. -/
def changePassword (store : Store) (now salt : Nat)
    (username current_password new_password : String) :
    Except HandleError Unit × Store :=
  match getUser store username with
  | none => (.error .UsernameDoesNotExist, store)
  | some user =>
    match enforceLoginState store username user true now with
    | (.error e, store') => (.error e, store')
    | (.ok user', store') =>
      if verifyHash user'.hashed_password current_password then
        let updated := { user' with
          hashed_password := hashPassword salt new_password
          password_reset := none }
        (.ok (), putUser store' username updated)
      else
        (.error .InvalidCredentials, store')

/-- `Handlers::reset_password` from `src/handlers.rs`.  The OsRng-generated
32-character token and the hash salt are explicit parameters; the reset phase
FSM is deliberately not consulted. -/
def resetPassword (store : Store) (now salt : Nat) (temp username : String) :
    Except HandleError PasswordResetResponse × Store :=
  match getUser store username with
  | none => (.error .UsernameDoesNotExist, store)
  | some user =>
    let expiry := now + DEFAULT_RESET_EXPIRY
    let updated := { user with
      hashed_password := hashPassword salt temp
      password_reset := some (PasswordResetPhase.Reset expiry) }
    (.ok { temp_password := temp, expires_at := expiry },
      putUser store username updated)

/-- Lexicographic comparison of character sequences by unicode scalar value
(the order `Ord for String` induces in Rust). -/
def strLtChars : List Char → List Char → Bool
  | [], [] => false
  | [], _ :: _ => true
  | _ :: _, [] => false
  | a :: as, b :: bs =>
    if a.toNat < b.toNat then true
    else if a.toNat = b.toNat then strLtChars as bs
    else false

/-- String order used by `BTreeSet<String>`. -/
def strLtb (a b : String) : Bool := strLtChars a.data b.data

/-- Insertion into a sorted duplicate-free list: `BTreeSet::insert`. -/
def insertSorted (x : String) : List String → List String
  | [] => [x]
  | y :: ys =>
    if strLtb x y then x :: y :: ys
    else if x = y then y :: ys
    else y :: insertSorted x ys

/-- `BTreeSet::extend`: insert every element of the second set. -/
def extendGroups (s g : List String) : List String :=
  g.foldl (fun acc x => insertSorted x acc) s

/-- `BTreeSet::difference(...).cloned().collect()`: elements of `s` not in
`g`. -/
def diffGroups (s g : List String) : List String :=
  s.filter (fun x => ¬ g.contains x)

/-- `Handlers::add_groups` from `src/handlers.rs`. -/
def addGroups (store : Store) (username : String) (groups : List String) :
    Except HandleError (List String) × Store :=
  match getUser store username with
  | none => (.error .UsernameDoesNotExist, store)
  | some user =>
    let newGroups := extendGroups user.groups groups
    (.ok newGroups, putUser store username { user with groups := newGroups })

/-- `Handlers::delete_groups` from `src/handlers.rs`. -/
def deleteGroups (store : Store) (username : String) (groups : List String) :
    Except HandleError (List String) × Store :=
  match getUser store username with
  | none => (.error .UsernameDoesNotExist, store)
  | some user =>
    let newGroups := diffGroups user.groups groups
    (.ok newGroups, putUser store username { user with groups := newGroups })

/-- The verify→envelope mapping of `NatsUserServer::handle_verify` in
`src/servers/nats/user.rs`: `InvalidCredentials` and `PasswordResetExpired`
are demoted to a `success = true` envelope that carries a
`VerificationResponse` with `valid = false`; every other error is published
through `send_error` as a `success = false` envelope. -/
def natsVerifyEnvelope (r : Except HandleError VerificationResponse) :
    GenericResponse VerificationResponse :=
  match r with
  | .ok resp =>
    { success := true, message := "Verification succeeded", response := some resp }
  | .error .InvalidCredentials =>
    { success := true, message := "Verification failed"
      response := some { valid := false
                         message := HandleError.InvalidCredentials.display
                         needs_password_reset := false
                         groups := [] } }
  | .error .PasswordResetExpired =>
    { success := true, message := "Verification failed"
      response := some { valid := false
                         message := HandleError.PasswordResetExpired.display
                         needs_password_reset := true
                         groups := [] } }
  | .error e =>
    { success := false, message := "verification failed: " ++ e.display
      response := none }

/-- The verify→envelope mapping of `SocketHandler::handle_verify` in
`src/servers/socket.rs` (the serialized `GenericResponse`, before framing).
The source is an acknowledged copy-paste of the NATS mapping. -/
def socketVerifyEnvelope (r : Except HandleError VerificationResponse) :
    GenericResponse VerificationResponse :=
  match r with
  | .ok resp =>
    { success := true, message := "Verification succeeded", response := some resp }
  | .error .InvalidCredentials =>
    { success := true, message := "Verification failed"
      response := some { valid := false
                         message := HandleError.InvalidCredentials.display
                         needs_password_reset := false
                         groups := [] } }
  | .error .PasswordResetExpired =>
    { success := true, message := "Verification failed"
      response := some { valid := false
                         message := HandleError.PasswordResetExpired.display
                         needs_password_reset := true
                         groups := [] } }
  | .error e =>
    { success := false, message := "verification failed: " ++ e.display
      response := none }

/-- The handler bodies named in the `match split[2]` dispatch of
`NatsAdminServer::run` in `src/servers/nats/admin.rs`. -/
inductive AdminHandler where
  | addUser
  | approveUser
  | getUserH
  | listUsers
  | removeUser
  | resetPasswordH
  | addGroupsH
  | deleteGroupsH
deriving DecidableEq, Repr

/-- The admin action dispatch table from `NatsAdminServer::run`
(`src/servers/nats/admin.rs` lines 45-79): maps the final subject token to the
handler method that is invoked; unknown actions get an error reply. -/
def adminRoute (action : String) : Option AdminHandler :=
  match action with
  | "add_user" => some .addUser
  | "approve_user" => some .approveUser
  | "get_user" => some .getUserH
  | "list_users" => some .listUsers
  | "remove_user" => some .removeUser
  | "reset_password" => some .resetPasswordH
  | "add_groups" => some .addGroupsH
  | "remove_groups" => some .deleteGroupsH
  | _ => none

/-- `NatsAdminServer::handle_delete_groups` from `src/servers/nats/admin.rs`
(lines 303-335).  NOTE: the source invokes `self.handlers.add_groups` (line
313) even though the handler, its dispatch entry and its success message are
all about group removal; the embedding reproduces that call literally. -/
def adminHandleDeleteGroups (store : Store) (req : GroupModifyRequest) :
    GenericResponse (List String) × Store :=
  match addGroups store req.username req.groups with
  | (.ok resp, store') =>
    ({ success := true
       message := "Deleted groups from user " ++ req.username
       response := some resp }, store')
  | (.error e, store') =>
    ({ success := false
       message := "Unable to delete groups for user: " ++ e.display
       response := none }, store')

/-- `NatsAdminServer::handle_add_groups` from `src/servers/nats/admin.rs`. -/
def adminHandleAddGroups (store : Store) (req : GroupModifyRequest) :
    GenericResponse (List String) × Store :=
  match addGroups store req.username req.groups with
  | (.ok resp, store') =>
    ({ success := true
       message := "Updated groups for user " ++ req.username
       response := some resp }, store')
  | (.error e, store') =>
    ({ success := false
       message := "Unable to add groups for user: " ++ e.display
       response := none }, store')

/-- Outcome of a fallible external call (bincode / jetstream KV), carrying the
error message on failure. -/
def KvResult (α : Type) : Type := Except String α

/-- The jetstream KV bucket operations used by `CredStore::put_user`, as
oracles: `entryRevision` is `store.entry(&username).map(|e| e.revision)` and
`update` is the compare-and-swap `store.update(key, value, revision)`. -/
structure KvBucket where
  entryRevision : String → KvResult (Option Nat)
  update : String → List Nat → Nat → KvResult Unit

/-- `CredStore::put_user` from `src/storage.rs` (lines 108-139): encode with
the binary codec first (bail early on failure), fetch the key's current
revision (0 when the key does not exist), compare-and-swap update at that
revision, and only then insert the record into the in-memory cache.  `enc` is
the external `bincode::encode_to_vec` codec.  The `.context(...)` wrappers on
the error strings are reproduced. -/
def credStorePutUser (enc : UserInfo → KvResult (List Nat)) (bucket : KvBucket)
    (cache : Store) (username : String) (info : UserInfo) :
    KvResult Unit × Store :=
  match enc info with
  | .error e => (.error ("Unable to encode data: " ++ e), cache)
  | .ok value =>
    match bucket.entryRevision username with
    | .error e => (.error ("Unable to fetch current revision: " ++ e), cache)
    | .ok maybeRev =>
      let revision := maybeRev.getD 0
      match bucket.update username value revision with
      | .error e => (.error ("Unable to update store: " ++ e), cache)
      | .ok _ => (.ok (), putUser cache username info)

/-- `REQUEST_IDENTIFIER` from `src/lib.rs`: the bytes of `"REQ\n"`. -/
def REQUEST_IDENTIFIER : List Nat := [82, 69, 81, 10]

/-- `TERMINATOR` from `src/lib.rs`: the bytes of `"\nEND\n"`. -/
def TERMINATOR : List Nat := [10, 69, 78, 68, 10]

/-- `MISBEHAVING_LIMIT` from `src/servers/socket.rs`. -/
def MISBEHAVING_LIMIT : Nat := 2048

/-- `tokio::io::read_until`: consume bytes up to and including the first
occurrence of `delim`, returning the consumed segment and the remaining
stream.  When the stream runs out first, everything read so far is returned
without the delimiter. -/
def readUntil (delim : Nat) : List Nat → List Nat × List Nat
  | [] => ([], [])
  | b :: rest =>
    if b = delim then ([b], rest)
    else (b :: (readUntil delim rest).1, (readUntil delim rest).2)

/-- Is `b` a UTF-8 continuation byte (`0x80..=0xBF`)? -/
def utf8Cont (b : Nat) : Bool := 0x80 ≤ b && b ≤ 0xBF

/-- UTF-8 validity of a byte sequence (RFC 3629), the check behind
`String::from_utf8` in `parse_incoming`: rejects overlong encodings,
surrogates, and code points above U+10FFFF. -/
def utf8Valid : List Nat → Bool
  | [] => true
  | b :: rest =>
    if b ≤ 0x7F then utf8Valid rest
    else if 0xC2 ≤ b ∧ b ≤ 0xDF then
      match rest with
      | c1 :: rest2 => utf8Cont c1 && utf8Valid rest2
      | [] => false
    else if b = 0xE0 then
      match rest with
      | c1 :: c2 :: rest2 =>
        (0xA0 ≤ c1 && c1 ≤ 0xBF) && (utf8Cont c2 && utf8Valid rest2)
      | _ => false
    else if (0xE1 ≤ b ∧ b ≤ 0xEC) ∨ b = 0xEE ∨ b = 0xEF then
      match rest with
      | c1 :: c2 :: rest2 => utf8Cont c1 && (utf8Cont c2 && utf8Valid rest2)
      | _ => false
    else if b = 0xED then
      match rest with
      | c1 :: c2 :: rest2 =>
        (0x80 ≤ c1 && c1 ≤ 0x9F) && (utf8Cont c2 && utf8Valid rest2)
      | _ => false
    else if b = 0xF0 then
      match rest with
      | c1 :: c2 :: c3 :: rest2 =>
        (0x90 ≤ c1 && c1 ≤ 0xBF) && (utf8Cont c2 && (utf8Cont c3 && utf8Valid rest2))
      | _ => false
    else if 0xF1 ≤ b ∧ b ≤ 0xF3 then
      match rest with
      | c1 :: c2 :: c3 :: rest2 =>
        utf8Cont c1 && (utf8Cont c2 && (utf8Cont c3 && utf8Valid rest2))
      | _ => false
    else if b = 0xF4 then
      match rest with
      | c1 :: c2 :: c3 :: rest2 =>
        (0x80 ≤ c1 && c1 ≤ 0x8F) && (utf8Cont c2 && (utf8Cont c3 && utf8Valid rest2))
      | _ => false
    else false

/-- Outcome of `parse_incoming` from `src/servers/socket.rs`.  `ok` carries
the method bytes, the body bytes and the unconsumed remainder of the stream;
`bad` is `ParseError::BadRequest` and carries the unconsumed remainder;
`closed` is `ParseError::ConnectionClosed`. -/
inductive ParseOutcome where
  | ok (method body rest : List Nat)
  | closed
  | bad (rest : List Nat)
deriving DecidableEq, Repr

/-- `parse_incoming` from `src/servers/socket.rs` (lines 320-419), over the
bytes available on the connection before the peer stops sending.  Exhaustion
of the input maps to `ConnectionClosed` (the EOF paths of `perform_read`); the
per-token 500 ms timeouts never fire in this complete-input model. -/
def parseIncoming (input : List Nat) : ParseOutcome :=
  -- read_exact of the 4-byte identifier, no timeout
  if input.length < 4 then .closed
  else if input.take 4 ≠ REQUEST_IDENTIFIER then .bad (input.drop 4)
  else
    -- read_until(b'\n') for the method line
    let m := readUntil 10 (input.drop 4)
    if m.1 = [] then .closed
    else if m.1.getLast? ≠ some 10 then .bad m.2
    else if ¬ utf8Valid m.1.dropLast then .bad m.2
    else
      -- read_until(b'\r') for the body
      let b := readUntil 13 m.2
      if b.1 = [] then .closed
      else if b.1.getLast? ≠ some 13 then .bad b.2
      -- read_exact of the 5-byte terminator
      else if b.2.length < 5 then .closed
      else if b.2.take 5 ≠ TERMINATOR then .bad (b.2.drop 5)
      else .ok m.1.dropLast b.1.dropLast (b.2.drop 5)

/-- The framing performed by `SocketClient::send_request` in
`src/clients/socket.rs` (lines 44-65). -/
def frameRequest (method body : List Nat) : List Nat :=
  REQUEST_IDENTIFIER ++ method ++ [10] ++ body ++ [13] ++ TERMINATOR

theorem readUntil_fst_append_snd (d : Nat) (l : List Nat) :
    (readUntil d l).1 ++ (readUntil d l).2 = l := by
  induction l with
  | nil => simp [readUntil]
  | cons b rest ih =>
    by_cases hb : b = d
    · simp [readUntil, hb]
    · simp [readUntil, hb, ih]

theorem readUntil_append_delim (d : Nat) (xs ys : List Nat) (h : d ∉ xs) :
    readUntil d (xs ++ d :: ys) = (xs ++ [d], ys) := by
  induction xs with
  | nil => simp [readUntil]
  | cons a as ih =>
    have ha : a ≠ d := fun e => h (by simp [e])
    have h' : d ∉ as := fun hmem => h (List.mem_cons_of_mem _ hmem)
    simp [readUntil, ha, ih h']

theorem readUntil_fst_ne_nil (d b : Nat) (rest : List Nat) :
    (readUntil d (b :: rest)).1 ≠ [] := by
  by_cases hb : b = d <;> simp [readUntil, hb]

/-- Outcome of `consume_leftover` from `src/servers/socket.rs`:  `drained`
when resynchronisation succeeded, `closedConn` when the peer closed, `abort`
when the connection is shut down with a "too much garbage data" error. -/
inductive ConsumeOutcome where
  | drained
  | closedConn
  | abort
deriving DecidableEq, Repr

/-- `consume_leftover` from `src/servers/socket.rs` (lines 272-318), for an
open connection.  `buffered` is the number of garbage bytes sitting in the
`BufReader`'s internal buffer (all consumed first); `pending` is the number of
garbage bytes still queued on the socket.  The single direct `read` into the
`remaining`-sized buffer returns `min pending remaining` bytes when data is
pending and otherwise hits the 300 ms timeout. -/
def consumeLeftover (buffered pending : Nat) : ConsumeOutcome :=
  if MISBEHAVING_LIMIT ≤ buffered then .abort
  else
    let remaining := MISBEHAVING_LIMIT - buffered
    if pending = 0 then .drained          -- timeout elapses with nothing to read
    else if min pending remaining = remaining then .abort
    else .drained

/-- Observable events of one socket connection task
(`SocketHandler::handle`): a parsed frame dispatched to its method handler, an
error envelope written by `send_error`, and the two ways the loop ends. -/
inductive SockOut where
  | handled (method body : List Nat)
  | errorEnvelope
  | closedClean
  | closedErr
deriving DecidableEq, Repr

/-- A successfully parsed frame consumes at least the identifier, the method
newline, the body carriage return and the terminator, so the remainder is
strictly shorter than the input.  (Termination measure for `session`.) -/
theorem parseIncoming_ok_length {input method body rest : List Nat}
    (h : parseIncoming input = .ok method body rest) :
    rest.length < input.length := by
  simp only [parseIncoming] at h
  by_cases h4 : input.length < 4
  · simp [h4] at h
  · rw [if_neg h4] at h
    by_cases hid : input.take 4 ≠ REQUEST_IDENTIFIER
    · simp [hid] at h
    · rw [if_neg hid] at h
      rcases hru : readUntil 10 (input.drop 4) with ⟨ms, r1⟩
      simp only [hru] at h
      rcases hbu : readUntil 13 r1 with ⟨bs, r2⟩
      simp only [hbu] at h
      have L1 : ms ++ r1 = input.drop 4 := by
        have := readUntil_fst_append_snd 10 (input.drop 4)
        rw [hru] at this
        exact this
      have L2 : bs ++ r2 = r1 := by
        have := readUntil_fst_append_snd 13 r1
        rw [hbu] at this
        exact this
      have hL1 : ms.length + r1.length = input.length - 4 := by
        have := congrArg List.length L1
        simpa using this
      have hL2 : bs.length + r2.length = r1.length := by
        have := congrArg List.length L2
        simpa using this
      split_ifs at h with hms hlast hutf hbs hblast hterm hterm5 <;> cases h
      have hmslen : 1 ≤ ms.length := by
        cases ms with
        | nil => exact absurd rfl hms
        | cons a tl => simp
      have hbslen : 1 ≤ bs.length := by
        cases bs with
        | nil => exact absurd rfl hbs
        | cons a tl => simp
      have hdrop : (List.drop 5 r2).length = r2.length - 5 := by simp
      omega

/-- One socket connection task (`SocketHandler::handle` in
`src/servers/socket.rs`, lines 69-126): loop parsing frames from the bytes
available on the connection; parsed frames are dispatched by method; on
`BadRequest` the leftover garbage is drained (`consume_leftover`), an error
envelope is sent, and the loop continues; on `ConnectionClosed` the task ends
cleanly; when draining aborts the task ends with an error.  `bursts` are the
client's successive writes, each becoming available once the previously
written bytes are consumed. -/
def session (avail : List Nat) (bursts : List (List Nat)) : List SockOut :=
  match avail, bursts with
  | [], [] => [.closedClean]
  | [], burst :: rest => session burst rest
  | a :: tl, bs =>
    match h : parseIncoming (a :: tl) with
    | .ok m b rest => .handled m b :: session rest bs
    | .closed => [.closedClean]
    | .bad leftover =>
      match consumeLeftover 0 leftover.length with
      | .abort => [.closedErr]
      | .closedConn => [.closedClean]
      | .drained => .errorEnvelope :: session [] bs
termination_by (bursts.length, avail.length)
decreasing_by
  · apply Prod.Lex.left
    simp
  · apply Prod.Lex.right
    exact parseIncoming_ok_length h
  · apply Prod.Lex.right
    simp

/-- Fixture: a user holding a freshly reset temporary password, phase
`Reset(200)`. -/
def resetRec : UserInfo :=
  { hashed_password := ⟨1, "temptoken"⟩
    password_reset := some (.Reset 200)
    groups := ["foo"] }

/-- Fixture: the same user after one successful login, phase
`InitialLogin(200)`. -/
def initialLoginRec : UserInfo :=
  { hashed_password := ⟨1, "temptoken"⟩
    password_reset := some (.InitialLogin 200)
    groups := ["foo"] }

/-- Fixture store in phase `Reset(200)`. -/
def c1StoreReset : Store := [("foo", resetRec)]

/-- Fixture store in phase `InitialLogin(200)`. -/
def c1StoreInitialLogin : Store := [("foo", initialLoginRec)]

/-- Fixture: the group-arithmetic user of spec scenario 5. -/
def c2Store : Store :=
  [("bar", { hashed_password := ⟨1, "p"⟩, password_reset := none
             groups := ["bar", "g1", "g2"] })]

/-- Fixture: the `remove_groups` request of spec scenario 5. -/
def c2Req : GroupModifyRequest := { username := "bar", groups := ["g1"] }

/-- Fixture: a generic stored user in normal state. -/
def plainRec : UserInfo :=
  { hashed_password := ⟨0, "pw"⟩, password_reset := none, groups := [] }

/-- Fixture: an occupied store for the `UsernameTaken` branch. -/
def c4TakenStore : Store := [("foo", plainRec)]

/-- Fixture: an `add_user` request targeting username `foo`. -/
def c4Req : AdminUserAddRequest :=
  { username := "foo", password := "supersecure", groups := ["foo"]
    force_password_change := true }

/-- Fixture: a locked user. -/
def lockedRec : UserInfo :=
  { hashed_password := ⟨1, "temptoken"⟩, password_reset := some .Locked
    groups := ["foo"] }

/-- Fixture store for the `Locked` phase. -/
def c6Store : Store := [("foo", lockedRec)]

/-- Fixture codec oracle that always encodes to a fixed byte string. -/
def c7Enc : UserInfo → KvResult (List Nat) := fun _ => .ok [1, 2, 3]

/-- Fixture codec oracle that always fails. -/
def c7EncBad : UserInfo → KvResult (List Nat) := fun _ => .error "boom"

/-- Fixture bucket oracle: the key is absent (revision fetch yields `none`)
and the CAS accepts exactly revision 0. -/
def c7Bucket : KvBucket :=
  { entryRevision := fun _ => .ok none
    update := fun _ _ revision => if revision = 0 then .ok () else .error "wrong last sequence" }

theorem getUser_putUser_self (store : Store) (username : String)
    (info : UserInfo) : getUser (putUser store username info) username = some info := by
  induction store with
  | nil => simp [putUser, getUser, List.find?]
  | cons hd tl ih =>
    obtain ⟨k, v⟩ := hd
    by_cases hk : k = username
    · subst hk
      simp [putUser, getUser, List.find?]
    · have hbeq : (k == username) = false := by simpa using hk
      simp only [putUser, hbeq, Bool.false_eq_true, if_false]
      simp only [getUser, List.find?, hbeq] at ih ⊢
      exact ih

/-- Claim C1: the spec requires a `verify` on a user in phase
`InitialLogin(e)` to run the FSM in non-change mode, fail with
`PasswordResetExpired` and lock the account, so that a temporary password
works exactly once.  The code instead passes `is_password_change = true` from
`Handlers::verify` (src/handlers.rs line 54), so with `now < e` the first
verify moves `Reset(200)` to `InitialLogin(200)` and a second verify with the
same temporary token still succeeds with `valid = true`, leaving the phase at
`InitialLogin(200)` instead of `Locked` — contradicting the repo's own e2e
test (`tests/nats_e2e.rs`, "Should not be able to log in after second login
attempt"). -/
theorem c1_second_verify_succeeds_in_code :
    verify c1StoreReset 100 "foo" "temptoken" =
      (.ok { valid := true, message := "Successfully verified"
             needs_password_reset := true, groups := ["foo"] },
       c1StoreInitialLogin)
    ∧ verify c1StoreInitialLogin 100 "foo" "temptoken" =
      (.ok { valid := true, message := "Successfully verified"
             needs_password_reset := true, groups := ["foo"] },
       c1StoreInitialLogin)
    ∧ getUser c1StoreInitialLogin "foo" = some initialLoginRec := by
  refine ⟨?_, ?_, ?_⟩ <;> rfl

/-- Claim C2: the admin dispatch routes subject `remove_groups` to
`handle_delete_groups`, but that handler invokes `Handlers::add_groups`
(src/servers/nats/admin.rs line 313), so the published envelope carries the
union `S ∪ G` instead of the set difference `S \ G`: for user `bar` with
groups `{bar, g1, g2}` and request `{g1}` the reply still contains `g1`.
`Handlers::delete_groups` itself computes the difference correctly, so the
bug is in the server wiring, contradicting the handler's name, its "Deleted
groups from user" message and the repo's e2e test. -/
theorem c2_remove_groups_routed_to_add_groups :
    adminRoute "remove_groups" = some .deleteGroupsH
    ∧ adminHandleDeleteGroups c2Store c2Req =
        ({ success := true, message := "Deleted groups from user bar"
           response := some ["bar", "g1", "g2"] }, c2Store)
    ∧ deleteGroups c2Store "bar" ["g1"] =
        (.ok ["bar", "g2"],
         [("bar", { hashed_password := ⟨1, "p"⟩, password_reset := none
                    groups := ["bar", "g2"] })])
    ∧ (["bar", "g1", "g2"] : List String) ≠ ["bar", "g2"] := by
  refine ⟨rfl, by decide, by decide, by decide⟩

/-- Claim C4: `add_user` fails with `UsernameTaken` when the username exists
and leaves the store unchanged; otherwise it stores a record whose hash
verifies the given password and whose reset phase is `Reset(now + 24h)` when
`force_password_change` is set and `None` otherwise. -/
theorem c4_add_user (store : Store) (now salt : Nat) (req : AdminUserAddRequest) :
    (existsUser store req.username = true →
      add store now salt req = (.error .UsernameTaken, store))
    ∧ (existsUser store req.username = false →
        add store now salt req =
          (.ok (), putUser store req.username
            { hashed_password := hashPassword salt req.password
              password_reset :=
                if req.force_password_change then
                  some (.Reset (now + DEFAULT_RESET_EXPIRY))
                else none
              groups := req.groups })
        ∧ getUser (add store now salt req).2 req.username =
            some { hashed_password := hashPassword salt req.password
                   password_reset :=
                     if req.force_password_change then
                       some (.Reset (now + DEFAULT_RESET_EXPIRY))
                     else none
                   groups := req.groups }
        ∧ verifyHash (hashPassword salt req.password) req.password = true)
    ∧ DEFAULT_RESET_EXPIRY = 86400 := by
  refine ⟨fun h => by simp [add, h], fun h => ⟨?_, ?_, ?_⟩, rfl⟩
  · simp [add, h]
  · simp [add, h, getUser_putUser_self]
  · simp [verifyHash, hashPassword]

/-- Witness for C4 at concrete inputs: username `foo` is taken in
`c4TakenStore` (store unchanged), and free in the empty store (record stored
with `Reset(0 + 24h)` since the request forces a change). -/
theorem c4_add_user_witness :
    (add c4TakenStore 0 7 c4Req = (.error .UsernameTaken, c4TakenStore))
    ∧ (add ([] : Store) 0 7 c4Req =
        (.ok (), putUser ([] : Store) c4Req.username
          { hashed_password := hashPassword 7 c4Req.password
            password_reset :=
              if c4Req.force_password_change then
                some (.Reset (0 + DEFAULT_RESET_EXPIRY))
              else none
            groups := c4Req.groups })
        ∧ getUser (add ([] : Store) 0 7 c4Req).2 c4Req.username =
            some { hashed_password := hashPassword 7 c4Req.password
                   password_reset :=
                     if c4Req.force_password_change then
                       some (.Reset (0 + DEFAULT_RESET_EXPIRY))
                     else none
                   groups := c4Req.groups }
        ∧ verifyHash (hashPassword 7 c4Req.password) c4Req.password = true) :=
  ⟨(c4_add_user c4TakenStore 0 7 c4Req).1 (by rfl),
   (c4_add_user ([] : Store) 0 7 c4Req).2.1 (by rfl)⟩

/-- Claim C6: a `Locked` user is denied by both `verify` and
`change_password` with `PasswordResetExpired` and the store is not written;
`reset_password` on the same user succeeds without consulting the FSM,
stores phase `Reset(now + 24h)` with the hash of the fresh token, and returns
the plaintext token with the absolute expiry. -/
theorem c6_locked_ops (store : Store) (now salt : Nat)
    (u pw old new temp : String) (user : UserInfo)
    (hu : getUser store u = some user)
    (hl : user.password_reset = some .Locked) :
    verify store now u pw = (.error .PasswordResetExpired, store)
    ∧ changePassword store now salt u old new = (.error .PasswordResetExpired, store)
    ∧ resetPassword store now salt temp u =
        (.ok { temp_password := temp, expires_at := now + DEFAULT_RESET_EXPIRY },
         putUser store u
           { user with hashed_password := hashPassword salt temp
                       password_reset := some (.Reset (now + DEFAULT_RESET_EXPIRY)) })
    ∧ getUser (resetPassword store now salt temp u).2 u =
        some { user with hashed_password := hashPassword salt temp
                         password_reset := some (.Reset (now + DEFAULT_RESET_EXPIRY)) } := by
  refine ⟨?_, ?_, ?_, ?_⟩ <;>
    simp [verify, changePassword, resetPassword, hu, enforceLoginState, hl,
      getUser_putUser_self]

/-- Witness for C6 at the concrete locked store. -/
theorem c6_locked_ops_witness :
    verify c6Store 300 "foo" "temptoken" = (.error .PasswordResetExpired, c6Store)
    ∧ changePassword c6Store 300 9 "foo" "temptoken" "fresh" =
        (.error .PasswordResetExpired, c6Store)
    ∧ resetPassword c6Store 300 9 "newtoken" "foo" =
        (.ok { temp_password := "newtoken", expires_at := 300 + DEFAULT_RESET_EXPIRY },
         putUser c6Store "foo"
           { lockedRec with hashed_password := hashPassword 9 "newtoken"
                            password_reset := some (.Reset (300 + DEFAULT_RESET_EXPIRY)) })
    ∧ getUser (resetPassword c6Store 300 9 "newtoken" "foo").2 "foo" =
        some { lockedRec with hashed_password := hashPassword 9 "newtoken"
                              password_reset := some (.Reset (300 + DEFAULT_RESET_EXPIRY)) } :=
  c6_locked_ops c6Store 300 9 "foo" "temptoken" "temptoken" "fresh" "newtoken"
    lockedRec (by rfl) (by rfl)

/-- Claim C10: a `verify` against a user in phase `Reset(e)` with `now < e`
and a wrong password returns `InvalidCredentials`, yet the store has already
been written with the phase advanced to `InitialLogin(e)`: the one-shot
transition is consumed and persisted by `enforce_login_state` before the
password comparison runs. -/
theorem c10_failed_verify_consumes_reset (store : Store) (now e : Nat)
    (u pw : String) (user : UserInfo)
    (hu : getUser store u = some user)
    (hr : user.password_reset = some (.Reset e))
    (hlt : now < e)
    (hbad : verifyHash user.hashed_password pw = false) :
    verify store now u pw =
      (.error .InvalidCredentials,
       putUser store u { user with password_reset := some (.InitialLogin e) })
    ∧ getUser (verify store now u pw).2 u =
        some { user with password_reset := some (.InitialLogin e) } := by
  constructor <;>
    simp [verify, hu, enforceLoginState, hr, hlt, hbad, getUser_putUser_self]

/-- Witness for C10: wrong password against the `Reset(200)` fixture at time
100. -/
theorem c10_failed_verify_consumes_reset_witness :
    verify c1StoreReset 100 "foo" "wrong" =
      (.error .InvalidCredentials,
       putUser c1StoreReset "foo"
         { resetRec with password_reset := some (.InitialLogin 200) })
    ∧ getUser (verify c1StoreReset 100 "foo" "wrong").2 "foo" =
        some { resetRec with password_reset := some (.InitialLogin 200) } :=
  c10_failed_verify_consumes_reset c1StoreReset 100 200 "foo" "wrong" resetRec
    (by rfl) (by rfl) (by decide) (by rfl)

/-- Claim C5: for an existing user whose reset-phase FSM admits a password
change, `change_password` with a wrong old password fails with
`InvalidCredentials`; with the right old password it persists a record with
`password_reset = None` whose hash verifies the new password, after which
`verify` succeeds on the new password and (for a distinct old password)
fails with `InvalidCredentials` on the old one. -/
theorem c5_change_password (store s2 : Store) (now now2 salt : Nat)
    (u old new : String) (user user2 : UserInfo)
    (hu : getUser store u = some user)
    (henf : enforceLoginState store u user true now = (.ok user2, s2)) :
    (verifyHash user2.hashed_password old = false →
      changePassword store now salt u old new = (.error .InvalidCredentials, s2))
    ∧ (verifyHash user2.hashed_password old = true →
        changePassword store now salt u old new =
          (.ok (), putUser s2 u
            { user2 with hashed_password := hashPassword salt new
                         password_reset := none })
        ∧ getUser (changePassword store now salt u old new).2 u =
            some { user2 with hashed_password := hashPassword salt new
                              password_reset := none }
        ∧ verify (changePassword store now salt u old new).2 now2 u new =
            (.ok { valid := true, message := "Successfully verified"
                   needs_password_reset := false, groups := user2.groups },
             (changePassword store now salt u old new).2)
        ∧ (old ≠ new →
            verify (changePassword store now salt u old new).2 now2 u old =
              (.error .InvalidCredentials,
               (changePassword store now salt u old new).2))) := by
  have hcp : ∀ hok : verifyHash user2.hashed_password old = true,
      changePassword store now salt u old new =
        (.ok (), putUser s2 u
          { user2 with hashed_password := hashPassword salt new
                       password_reset := none }) := by
    intro hok
    simp [changePassword, hu, henf, hok]
  refine ⟨fun hbad => ?_, fun hok => ?_⟩
  · simp [changePassword, hu, henf, hbad]
  · refine ⟨hcp hok, ?_, ?_, ?_⟩
    · rw [hcp hok]
      exact getUser_putUser_self ..
    · rw [hcp hok]
      simp [verify, getUser_putUser_self, enforceLoginState, verifyHash, hashPassword]
    · intro hne
      rw [hcp hok]
      simp [verify, getUser_putUser_self, enforceLoginState, verifyHash, hashPassword]
      simpa using fun h => absurd h.symm hne

/-- Witness for C5 at concrete inputs: user `foo` with password `pw`, FSM in
normal state (admits the change trivially), wrong old password `bad`, right
old password `pw`, new password `fresh`. -/
theorem c5_change_password_witness :
    (changePassword c4TakenStore 0 5 "foo" "bad" "fresh" =
      (.error .InvalidCredentials, c4TakenStore))
    ∧ (changePassword c4TakenStore 0 5 "foo" "pw" "fresh" =
        (.ok (), putUser c4TakenStore "foo"
          { plainRec with hashed_password := hashPassword 5 "fresh"
                          password_reset := none })) :=
  ⟨(c5_change_password c4TakenStore c4TakenStore 0 0 5 "foo" "bad" "fresh"
      plainRec plainRec (by rfl) (by rfl)).1 (by rfl),
   ((c5_change_password c4TakenStore c4TakenStore 0 0 5 "foo" "pw" "fresh"
      plainRec plainRec (by rfl) (by rfl)).2 (by rfl)).1⟩

/-- Claim C3: on both transports, `InvalidCredentials` and
`PasswordResetExpired` from `verify` are demoted to `success = true`
envelopes carrying a `VerificationResponse` with `valid = false` (message
"Invalid username or password" with `needs_password_reset = false`, resp.
"Password reset has expired" with `needs_password_reset = true`); every other
verify failure becomes a `success = false` envelope with a non-empty
message.  The two transports produce identical envelopes. -/
theorem c3_verify_envelope_mapping (e : HandleError)
    (h1 : e ≠ HandleError.InvalidCredentials)
    (h2 : e ≠ HandleError.PasswordResetExpired) :
    natsVerifyEnvelope (.error .InvalidCredentials) =
      { success := true, message := "Verification failed"
        response := some { valid := false, message := "Invalid username or password"
                           needs_password_reset := false, groups := [] } }
    ∧ socketVerifyEnvelope (.error .InvalidCredentials) =
      { success := true, message := "Verification failed"
        response := some { valid := false, message := "Invalid username or password"
                           needs_password_reset := false, groups := [] } }
    ∧ natsVerifyEnvelope (.error .PasswordResetExpired) =
      { success := true, message := "Verification failed"
        response := some { valid := false, message := "Password reset has expired"
                           needs_password_reset := true, groups := [] } }
    ∧ socketVerifyEnvelope (.error .PasswordResetExpired) =
      { success := true, message := "Verification failed"
        response := some { valid := false, message := "Password reset has expired"
                           needs_password_reset := true, groups := [] } }
    ∧ (∀ r, natsVerifyEnvelope r = socketVerifyEnvelope r)
    ∧ (natsVerifyEnvelope (.error e)).success = false
    ∧ (natsVerifyEnvelope (.error e)).message ≠ ""
    ∧ (socketVerifyEnvelope (.error e)).success = false
    ∧ (socketVerifyEnvelope (.error e)).message ≠ "" := by
  have hne : ∀ msg : String, ("verification failed: " ++ msg) ≠ "" := by
    intro msg hcon
    have hlen := congrArg String.length hcon
    rw [String.length_append] at hlen
    have h21 : ("verification failed: ").length = 21 := rfl
    have h0 : ("" : String).length = 0 := rfl
    omega
  refine ⟨rfl, rfl, rfl, rfl, ?_, ?_, ?_, ?_, ?_⟩
  · intro r
    cases r with
    | ok v => rfl
    | error e2 => cases e2 <;> rfl
  all_goals
    cases e <;>
      first
        | exact absurd rfl h1
        | exact absurd rfl h2
        | exact rfl
        | exact hne _

/-- Witness for C3 at `UsernameDoesNotExist`, a verify failure that is not
one of the two demoted errors. -/
theorem c3_verify_envelope_mapping_witness :
    (natsVerifyEnvelope (.error HandleError.UsernameDoesNotExist)).success = false
    ∧ (natsVerifyEnvelope (.error HandleError.UsernameDoesNotExist)).message ≠ ""
    ∧ (socketVerifyEnvelope (.error HandleError.UsernameDoesNotExist)).success = false
    ∧ (socketVerifyEnvelope (.error HandleError.UsernameDoesNotExist)).message ≠ "" := by
  have h := c3_verify_envelope_mapping HandleError.UsernameDoesNotExist
    (by decide) (by decide)
  exact ⟨h.2.2.2.2.2.1, h.2.2.2.2.2.2.1, h.2.2.2.2.2.2.2.1, h.2.2.2.2.2.2.2.2⟩

/-- Claim C7: `CredStore::put_user` encodes the record first, then reads the
key's current revision (0 when the key is absent), then performs the CAS
update at that revision; the cache is modified only after the update
succeeds, and any failure of encoding, revision fetch, or update surfaces the
error while leaving the cache untouched. -/
theorem c7_put_user_cache_discipline (enc : UserInfo → KvResult (List Nat))
    (bucket : KvBucket) (cache : Store) (u : String) (info : UserInfo) :
    (∀ e, enc info = .error e →
      credStorePutUser enc bucket cache u info =
        (.error ("Unable to encode data: " ++ e), cache))
    ∧ (∀ value e, enc info = .ok value → bucket.entryRevision u = .error e →
        credStorePutUser enc bucket cache u info =
          (.error ("Unable to fetch current revision: " ++ e), cache))
    ∧ (∀ value maybeRev e, enc info = .ok value →
        bucket.entryRevision u = .ok maybeRev →
        bucket.update u value (maybeRev.getD 0) = .error e →
        credStorePutUser enc bucket cache u info =
          (.error ("Unable to update store: " ++ e), cache))
    ∧ (∀ value maybeRev, enc info = .ok value →
        bucket.entryRevision u = .ok maybeRev →
        bucket.update u value (maybeRev.getD 0) = .ok () →
        credStorePutUser enc bucket cache u info = (.ok (), putUser cache u info)
        ∧ getUser (putUser cache u info) u = some info)
    ∧ (∀ msg, (credStorePutUser enc bucket cache u info).1 = .error msg →
        (credStorePutUser enc bucket cache u info).2 = cache) := by
  refine ⟨?_, ?_, ?_, ?_, ?_⟩
  · intro e he
    simp [credStorePutUser, he]
  · intro value e hv hb
    simp [credStorePutUser, hv, hb]
  · intro value maybeRev e hv hb hupd
    simp [credStorePutUser, hv, hb, hupd]
  · intro value maybeRev hv hb hupd
    exact ⟨by simp [credStorePutUser, hv, hb, hupd], getUser_putUser_self ..⟩
  · intro msg
    cases henc : enc info with
    | error e => simp [credStorePutUser, henc]
    | ok value =>
      cases hent : bucket.entryRevision u with
      | error e => simp [credStorePutUser, henc, hent]
      | ok maybeRev =>
        cases hupd : bucket.update u value (maybeRev.getD 0) with
        | error e => simp [credStorePutUser, henc, hent, hupd]
        | ok r => simp [credStorePutUser, henc, hent, hupd]

/-- Witness for C7: the failing codec surfaces its error on the unchanged
empty cache; the successful path with an absent key (revision 0 accepted by
the CAS oracle) inserts the record into the cache. -/
theorem c7_put_user_cache_discipline_witness :
    credStorePutUser c7EncBad c7Bucket ([] : Store) "foo" plainRec =
      (.error ("Unable to encode data: " ++ "boom"), ([] : Store))
    ∧ credStorePutUser c7Enc c7Bucket ([] : Store) "foo" plainRec =
        (.ok (), putUser ([] : Store) "foo" plainRec)
    ∧ getUser (putUser ([] : Store) "foo" plainRec) "foo" = some plainRec := by
  refine ⟨?_, ?_, ?_⟩
  · exact (c7_put_user_cache_discipline c7EncBad c7Bucket [] "foo" plainRec).1
      "boom" rfl
  · exact ((c7_put_user_cache_discipline c7Enc c7Bucket [] "foo" plainRec).2.2.2.1
      [1, 2, 3] none rfl rfl rfl).1
  · exact ((c7_put_user_cache_discipline c7Enc c7Bucket [] "foo" plainRec).2.2.2.1
      [1, 2, 3] none rfl rfl rfl).2

theorem parseIncoming_badIdent (input : List Nat) (h4 : 4 ≤ input.length)
    (hid : input.take 4 ≠ REQUEST_IDENTIFIER) :
    parseIncoming input = .bad (input.drop 4) := by
  rw [parseIncoming, if_neg (by omega), if_pos hid]

theorem parseIncoming_frameRequest (method body extra : List Nat)
    (hm : 10 ∉ method) (hb : 13 ∉ body) (hu : utf8Valid method = true) :
    parseIncoming (frameRequest method body ++ extra) = .ok method body extra := by
  have hinput : frameRequest method body ++ extra =
      82 :: 69 :: 81 :: 10 ::
        (method ++ 10 :: (body ++ 13 :: (10 :: 69 :: 78 :: 68 :: 10 :: extra))) := by
    simp [frameRequest, REQUEST_IDENTIFIER, TERMINATOR]
  rw [hinput]
  simp [parseIncoming, REQUEST_IDENTIFIER, TERMINATOR,
    readUntil_append_delim 10 method
      (body ++ 13 :: (10 :: 69 :: 78 :: 68 :: 10 :: extra)) hm,
    readUntil_append_delim 13 body (10 :: 69 :: 78 :: 68 :: 10 :: extra) hb,
    hu, List.getLast?_concat, List.dropLast_concat]
  rw [if_neg (by omega), if_neg (by omega)]

theorem consumeLeftover_abort_iff (b p : Nat) :
    consumeLeftover b p = .abort ↔ MISBEHAVING_LIMIT ≤ b + p := by
  have hL : MISBEHAVING_LIMIT = 2048 := rfl
  simp only [consumeLeftover]
  split_ifs with h1 h2 h3
  · exact iff_of_true rfl (by omega)
  · exact iff_of_false (by simp) (by omega)
  · have hmin := Nat.min_le_left p (MISBEHAVING_LIMIT - b)
    rw [h3] at hmin
    exact iff_of_true rfl (by omega)
  · have hle : ¬ (MISBEHAVING_LIMIT - b ≤ p) := by
      intro hc
      exact h3 (Nat.min_eq_right hc)
    exact iff_of_false (by simp) (by omega)

theorem consumeLeftover_drained (b p : Nat) (h : b + p < MISBEHAVING_LIMIT) :
    consumeLeftover b p = .drained := by
  have hL : MISBEHAVING_LIMIT = 2048 := rfl
  simp only [consumeLeftover]
  rw [if_neg (by omega)]
  by_cases hp : p = 0
  · rw [if_pos hp]
  · rw [if_neg hp, if_neg]
    intro hc
    have hmin := Nat.min_le_left p (MISBEHAVING_LIMIT - b)
    rw [hc] at hmin
    omega

set_option maxRecDepth 65536

theorem session_nil_nil : session [] [] = [.closedClean] := by
  rw [session]

theorem session_nil_cons (b : List Nat) (bs : List (List Nat)) :
    session [] (b :: bs) = session b bs := by
  rw [session]

theorem session_parse_ok {avail m b rest : List Nat} (bs : List (List Nat))
    (hne : avail ≠ []) (h : parseIncoming avail = .ok m b rest) :
    session avail bs = .handled m b :: session rest bs := by
  cases avail with
  | nil => exact absurd rfl hne
  | cons a tl =>
    rw [session]
    split
    · rename_i heq
      rw [h] at heq
      cases heq
      rfl
    · rename_i heq
      rw [h] at heq
      cases heq
    · rename_i heq
      rw [h] at heq
      cases heq

theorem session_parse_bad {avail leftover : List Nat} (bs : List (List Nat))
    (hne : avail ≠ []) (h : parseIncoming avail = .bad leftover) :
    session avail bs =
      match consumeLeftover 0 leftover.length with
      | .abort => [.closedErr]
      | .closedConn => [.closedClean]
      | .drained => .errorEnvelope :: session [] bs := by
  cases avail with
  | nil => exact absurd rfl hne
  | cons a tl =>
    rw [session]
    split
    · rename_i heq
      rw [h] at heq
      cases heq
    · rename_i heq
      rw [h] at heq
      cases heq
    · rename_i heq
      rw [h] at heq
      cases heq
      rfl

theorem session_garbage_abort (g : List Nat) (bs : List (List Nat))
    (h4 : 4 ≤ g.length) (hid : g.take 4 ≠ REQUEST_IDENTIFIER)
    (hbig : MISBEHAVING_LIMIT + 4 ≤ g.length) :
    session g bs = [.closedErr] := by
  have hne : g ≠ [] := by
    intro hc
    rw [hc] at h4
    simp at h4
  rw [session_parse_bad bs hne (parseIncoming_badIdent g h4 hid)]
  have hlen : (g.drop 4).length = g.length - 4 := by simp
  have habort : consumeLeftover 0 (g.drop 4).length = .abort := by
    rw [consumeLeftover_abort_iff, hlen]
    omega
  rw [habort]

theorem session_garbage_drained (g : List Nat) (bs : List (List Nat))
    (h4 : 4 ≤ g.length) (hid : g.take 4 ≠ REQUEST_IDENTIFIER)
    (hsmall : g.length < MISBEHAVING_LIMIT + 4) :
    session g bs = .errorEnvelope :: session [] bs := by
  have hne : g ≠ [] := by
    intro hc
    rw [hc] at h4
    simp at h4
  rw [session_parse_bad bs hne (parseIncoming_badIdent g h4 hid)]
  have hlen : (g.drop 4).length = g.length - 4 := by simp
  have hdr : consumeLeftover 0 (g.drop 4).length = .drained := by
    rw [hlen]
    exact consumeLeftover_drained 0 (g.length - 4) (by omega)
  rw [hdr]

/-- Claim C8: the client framing and the server parser are mutually inverse —
`parse_incoming` applied to the client-framed request returns exactly the
method and body (for methods without an embedded `\n` byte and bodies without
an embedded `\r` byte), and any frame whose first four bytes differ from
`"REQ\n"` is rejected as `BadRequest`. -/
theorem c8_socket_framing_roundtrip (method body extra input : List Nat)
    (hm : 10 ∉ method) (hb : 13 ∉ body) (hu : utf8Valid method = true)
    (h4 : 4 ≤ input.length) (hid : input.take 4 ≠ REQUEST_IDENTIFIER) :
    parseIncoming (frameRequest method body ++ extra) = .ok method body extra
    ∧ parseIncoming input = .bad (input.drop 4) :=
  ⟨parseIncoming_frameRequest method body extra hm hb hu,
   parseIncoming_badIdent input h4 hid⟩

/-- Witness for C8: the framed `verify` request with body `{}` parses back to
itself, and a frame opening with four zero bytes is a `BadRequest`. -/
theorem c8_socket_framing_roundtrip_witness :
    parseIncoming (frameRequest [118, 101, 114, 105, 102, 121] [123, 125] ++ []) =
      .ok [118, 101, 114, 105, 102, 121] [123, 125] []
    ∧ parseIncoming [0, 0, 0, 0] = .bad (List.drop 4 [0, 0, 0, 0]) :=
  c8_socket_framing_roundtrip [118, 101, 114, 105, 102, 121] [123, 125] []
    [0, 0, 0, 0] (by decide) (by decide) (by decide) (by decide) (by decide)

/-- Claim C9 (amended): after a malformed request the server answers an error
envelope on the same connection, drains the pending garbage, and keeps
serving — a bad frame followed by a valid frame gets the valid frame
dispatched; the connection is closed with an error if and only if at least
`MISBEHAVING_LIMIT` (2048) bytes of garbage must be drained; in particular
3000 bytes of garbage close the connection.  (The unamended claim's strict
"more than 2048" bound is refuted by `c9_exactly_limit_counterexample`.) -/
theorem c9_socket_garbage_recovery :
    (∀ b p, consumeLeftover b p = .abort ↔ MISBEHAVING_LIMIT ≤ b + p)
    ∧ session [] [List.replicate 3000 12] = [.closedErr]
    ∧ (∀ g method body, 4 ≤ g.length → g.take 4 ≠ REQUEST_IDENTIFIER →
        g.length < MISBEHAVING_LIMIT + 4 → 10 ∉ method → 13 ∉ body →
        utf8Valid method = true →
        session [] [g, frameRequest method body] =
          [.errorEnvelope, .handled method body, .closedClean]) := by
  refine ⟨consumeLeftover_abort_iff, ?_, ?_⟩
  · rw [session_nil_cons]
    apply session_garbage_abort
    · simp
    · rw [List.take_replicate]
      decide
    · simp [MISBEHAVING_LIMIT]
  · intro g method body h4 hid hsmall hm hb hu
    rw [session_nil_cons, session_garbage_drained g [frameRequest method body] h4 hid hsmall,
      session_nil_cons]
    have hframe : parseIncoming (frameRequest method body) = .ok method body [] := by
      have := parseIncoming_frameRequest method body [] hm hb hu
      simpa using this
    have hne : frameRequest method body ≠ [] := by
      simp [frameRequest, REQUEST_IDENTIFIER]
    rw [session_parse_ok [] hne hframe, session_nil_nil]

/-- Witness for C9 at concrete inputs: the drain-abort characterisation at
`(0, 0)`, and a 4-byte garbage frame followed by a framed `verify` request
with body `{}`. -/
theorem c9_socket_garbage_recovery_witness :
    (consumeLeftover 0 0 = .abort ↔ MISBEHAVING_LIMIT ≤ 0 + 0)
    ∧ session [] [[0, 0, 0, 0], frameRequest [118, 101, 114, 105, 102, 121] [123, 125]] =
        [.errorEnvelope, .handled [118, 101, 114, 105, 102, 121] [123, 125], .closedClean] :=
  ⟨c9_socket_garbage_recovery.1 0 0,
   c9_socket_garbage_recovery.2.2 [0, 0, 0, 0] [118, 101, 114, 105, 102, 121]
     [123, 125] (by decide) (by decide) (by decide) (by decide) (by decide)
     (by decide)⟩

/-- Counterexample to C9 as stated: with exactly `MISBEHAVING_LIMIT` (2048)
garbage bytes pending, the code aborts the connection
(`Ok(Ok(n)) if n == remaining` in `consume_leftover`), although 2048 is not
"more than 2048", so closure is not equivalent to draining strictly more than
2048 bytes. -/
theorem c9_exactly_limit_counterexample :
    ¬ (consumeLeftover 0 2048 = .abort ↔ 2048 < 0 + 2048) := by
  decide

end Snas
